import Mathlib

/-!
# Verification of the scratchstack SigV4 verifier and Aspen policy model

A shallow embedding of `scratchstack/signature/src/signature.rs` (the AWS
SigV4 server-side verification routines) and of
`lib/scratchstack_aspen/lib.rs` (the IAM policy JSON data model), together
with theorems settling the specification claims about them.

Conventions of the embedding:

* Rust byte strings (`&[u8]`, `Vec<u8>`) and Rust `String`/`&str` (which are
  UTF-8 byte vectors) are both modelled as `List Nat`, each element a byte.
* Machine arithmetic is `Nat` with explicit `% 2^32` where overflow matters.
* Fallible Rust code returns `RResult`, whose `crash` alternative models a
  Rust panic (index out of bounds, `unwrap` failure); `fail` carries a
  `SignatureError` as in the source.
* `chrono::DateTime<Utc>` is modelled as an `Int` count of seconds since the
  Unix epoch; the repository's `chronoutil` module is not under `src/`, so
  its ISO 8601 parser is modelled from the spec (see `parseISO8601Compact`).
-/

namespace Sig

/-! ## Byte-string utilities -/

/-- UTF-8 encoding of one character (RFC 3629). -/
def utf8EncodeChar (c : Char) : List Nat :=
  let n := c.toNat
  if n < 0x80 then [n]
  else if n < 0x800 then [0xC0 + n / 64, 0x80 + n % 64]
  else if n < 0x10000 then
    [0xE0 + n / 4096, 0x80 + (n / 64) % 64, 0x80 + n % 64]
  else
    [0xF0 + n / 262144, 0x80 + (n / 4096) % 64, 0x80 + (n / 64) % 64,
     0x80 + n % 64]

/-- The UTF-8 bytes of a string literal; used to write Rust strings in
theorem statements. -/
def str (s : String) : List Nat :=
  (s.data.map utf8EncodeChar).flatten

/-- Is `b` a UTF-8 continuation byte (`0x80..=0xBF`)? -/
def isCont (b : Nat) : Bool := 0x80 ≤ b && b ≤ 0xBF

/-- UTF-8 validity of a byte sequence (RFC 3629, surrogates and overlong
forms rejected); models `std::str::from_utf8(..).is_ok()`. -/
def utf8Valid : List Nat → Bool
  | [] => true
  | b :: rest =>
    if b ≤ 0x7F then utf8Valid rest
    else if 0xC2 ≤ b && b ≤ 0xDF then
      match rest with
      | b1 :: rest1 => isCont b1 && utf8Valid rest1
      | [] => false
    else if 0xE0 ≤ b && b ≤ 0xEF then
      match rest with
      | b1 :: b2 :: rest2 =>
        (if b = 0xE0 then 0xA0 ≤ b1 && b1 ≤ 0xBF
         else if b = 0xED then 0x80 ≤ b1 && b1 ≤ 0x9F
         else isCont b1)
          && isCont b2 && utf8Valid rest2
      | _ => false
    else if 0xF0 ≤ b && b ≤ 0xF4 then
      match rest with
      | b1 :: b2 :: b3 :: rest3 =>
        (if b = 0xF0 then 0x90 ≤ b1 && b1 ≤ 0xBF
         else if b = 0xF4 then 0x80 ≤ b1 && b1 ≤ 0x8F
         else isCont b1)
          && isCont b2 && isCont b3 && utf8Valid rest3
      | _ => false
    else false

/-- ASCII lowercase of a byte (models `str::to_lowercase` on the ASCII
header names this code compares; the Unicode cases do not arise). -/
def lowerByte (b : Nat) : Nat :=
  if 65 ≤ b && b ≤ 90 then b + 32 else b

def lowerBytes (l : List Nat) : List Nat := l.map lowerByte

/-- Byte-wise lexicographic order on byte strings, as `Ord`/`PartialOrd`
compare Rust strings and byte vectors. -/
def lexLe : List Nat → List Nat → Bool
  | [], _ => true
  | _ :: _, [] => false
  | a :: as_, b :: bs =>
    if a < b then true
    else if a = b then lexLe as_ bs
    else false

/-- Insertion into a list sorted by `le` (used to model `Vec::sort_unstable`
and `BTreeMap` ordering; insertion sort is stable, which agrees with the
source on all inputs compared here). -/
def insertLe (le : α → α → Bool) (x : α) : List α → List α
  | [] => [x]
  | y :: ys => if le x y then x :: y :: ys else y :: insertLe le x ys

def sortLe (le : α → α → Bool) (l : List α) : List α :=
  l.foldr (insertLe le) []

/-- Split a byte string at every occurrence of `sep`, keeping empty pieces,
as Rust's `str::split` does for a one-byte pattern. -/
def splitByte (sep : Nat) (l : List Nat) : List (List Nat) :=
  l.foldr
    (fun c acc =>
      match acc with
      | cur :: rest => if c = sep then [] :: cur :: rest else (c :: cur) :: rest
      | [] => [[c]])
    [[]]

/-- Split at the first occurrence of `sep` only, as `str::splitn(2, sep)`:
the result has one element (no separator) or two. -/
def splitOnceByte (sep : Nat) : List Nat → List (List Nat)
  | [] => [[]]
  | c :: rest =>
    if c = sep then [[], rest]
    else
      match splitOnceByte sep rest with
      | pre :: more => (c :: pre) :: more
      | [] => [[c]]

/-- ASCII whitespace test, the fragment of `char::is_whitespace` exercised
by the header values this code trims. -/
def isSpaceByte (b : Nat) : Bool :=
  b = 32 || b = 9 || b = 10 || b = 11 || b = 12 || b = 13

def trimStartBytes (l : List Nat) : List Nat := l.dropWhile isSpaceByte

def trimEndBytes (l : List Nat) : List Nat :=
  (l.reverse.dropWhile isSpaceByte).reverse

def trimBytes (l : List Nat) : List Nat := trimEndBytes (trimStartBytes l)

/-- Replace every maximal run of the byte `b` by a single `b`.  Models the
lazy-static regexes `MULTISLASH` (`//+` → `/`) and `MULTISPACE`
(`␣␣+` → `␣`): replacing each run of length ≥ 2 by one occurrence leaves
runs of length 1 unchanged, so every run collapses to one byte. -/
def collapseRuns (b : Nat) (l : List Nat) : List Nat :=
  let step := l.foldl
    (fun (acc : List Nat × Bool) c =>
      if c = b then
        (if acc.2 then acc.1 else acc.1 ++ [b], true)
      else
        (acc.1 ++ [c], false))
    ([], false)
  step.1

def joinSep (sep : List Nat) : List (List Nat) → List Nat
  | [] => []
  | [x] => x
  | x :: xs => x ++ sep ++ joinSep sep xs

/-- First-match association lookup on byte-string keys, modelling
`HashMap::get` (keys are unique in every map the source builds). -/
def assocGet (m : List (List Nat × α)) (k : List Nat) : Option α :=
  match m with
  | [] => none
  | (k', v) :: rest => if k' = k then some v else assocGet rest k

/-! ## Hex encoding and decoding -/

/-- Value of one ASCII hex digit, as `hex::decode` accepts it. -/
def hexDigitVal (b : Nat) : Option Nat :=
  if 48 ≤ b && b ≤ 57 then some (b - 48)
  else if 97 ≤ b && b ≤ 102 then some (b - 87)
  else if 65 ≤ b && b ≤ 70 then some (b - 55)
  else none

/-- Lowercase hex digit for a value below 16, as `hex::encode` emits. -/
def hexDigitLower (v : Nat) : Nat :=
  if v < 10 then 48 + v else 87 + v

/-- Uppercase hex digit, as `write!("%{:02X}", c)` emits. -/
def hexDigitUpper (v : Nat) : Nat :=
  if v < 10 then 48 + v else 55 + v

/-- `hex::encode`: lowercase hex of a byte string. -/
def hexEncode (l : List Nat) : List Nat :=
  l.foldr (fun b acc => hexDigitLower (b / 16) :: hexDigitLower (b % 16) :: acc) []

/-- A byte as `%HH` with uppercase hex. -/
def percentEncodeByte (b : Nat) : List Nat :=
  [37, hexDigitUpper (b / 16), hexDigitUpper (b % 16)]

/-- The `{:?}` (Debug) rendering of a `&[u8]` slice, as it appears in the
`Invalid hex encoding: {:?}` error detail: decimal values in brackets. -/
def natDecimal (n : Nat) : List Nat :=
  (Nat.toDigits 10 n).map Char.toNat

def debugByteSlice (l : List Nat) : List Nat :=
  str "[" ++ joinSep (str ", ") (l.map natDecimal) ++ str "]"

/-! ## SHA-256 (FIPS 180-4), executable over byte lists -/

def mask32 : Nat := 4294967296

def add32 (a b : Nat) : Nat := (a + b) % mask32

def rotr32 (n w : Nat) : Nat :=
  ((w >>> n) ||| (w <<< (32 - n))) % mask32

def shaK : List Nat :=
  [1116352408, 1899447441, 3049323471, 3921009573, 961987163,
   1508970993, 2453635748, 2870763221, 3624381080, 310598401,
   607225278, 1426881987, 1925078388, 2162078206, 2614888103,
   3248222580, 3835390401, 4022224774, 264347078, 604807628,
   770255983, 1249150122, 1555081692, 1996064986, 2554220882,
   2821834349, 2952996808, 3210313671, 3336571891, 3584528711,
   113926993, 338241895, 666307205, 773529912, 1294757372,
   1396182291, 1695183700, 1986661051, 2177026350, 2456956037,
   2730485921, 2820302411, 3259730800, 3345764771, 3516065817,
   3600352804, 4094571909, 275423344, 430227734, 506948616,
   659060556, 883997877, 958139571, 1322822218, 1537002063,
   1747873779, 1955562222, 2024104815, 2227730452, 2361852424,
   2428436474, 2756734187, 3204031479, 3329325298]

def shaH0 : List Nat :=
  [1779033703, 3144134277, 1013904242, 2773480762, 1359893119,
   2600822924, 528734635, 1541459225]

/-- Big-endian 32-bit words from bytes (length a multiple of 4). -/
def bytesToWords : List Nat → List Nat
  | b0 :: b1 :: b2 :: b3 :: rest =>
    (b0 * 16777216 + b1 * 65536 + b2 * 256 + b3) :: bytesToWords rest
  | _ => []

def wordToBytes (w : Nat) : List Nat :=
  [w / 16777216 % 256, w / 65536 % 256, w / 256 % 256, w % 256]

def smallSigma0 (w : Nat) : Nat :=
  (rotr32 7 w) ^^^ (rotr32 18 w) ^^^ (w >>> 3)

def smallSigma1 (w : Nat) : Nat :=
  (rotr32 17 w) ^^^ (rotr32 19 w) ^^^ (w >>> 10)

def bigSigma0 (w : Nat) : Nat :=
  (rotr32 2 w) ^^^ (rotr32 13 w) ^^^ (rotr32 22 w)

def bigSigma1 (w : Nat) : Nat :=
  (rotr32 6 w) ^^^ (rotr32 11 w) ^^^ (rotr32 25 w)

/-- Extend the 16 message words to 64; `ws` accumulates in reverse. -/
def extendSchedule : Nat → List Nat → List Nat
  | 0, ws => ws.reverse
  | n + 1, ws =>
    let w2 := ws.getD 1 0
    let w7 := ws.getD 6 0
    let w15 := ws.getD 14 0
    let w16 := ws.getD 15 0
    let w := (smallSigma1 w2 + w7 + smallSigma0 w15 + w16) % mask32
    extendSchedule n (w :: ws)

def shaRound (state : List Nat) (kw : Nat × Nat) : List Nat :=
  match state with
  | [a, b, c, d, e, f, g, h] =>
    let t1 := (h + bigSigma1 e + ((e &&& f) ^^^ ((mask32 - 1 - e) &&& g))
      + kw.1 + kw.2) % mask32
    let t2 := (bigSigma0 a + ((a &&& b) ^^^ (a &&& c) ^^^ (b &&& c))) % mask32
    [add32 t1 t2, a, b, c, add32 d t1, e, f, g]
  | s => s

def shaCompress (h : List Nat) (block : List Nat) : List Nat :=
  let w16 := bytesToWords block
  let w := extendSchedule 48 w16.reverse
  let out := (shaK.zip w).foldl shaRound h
  (h.zip out).map (fun p => add32 p.1 p.2)

def be64 (n : Nat) : List Nat :=
  [n / 72057594037927936 % 256, n / 281474976710656 % 256,
   n / 1099511627776 % 256, n / 4294967296 % 256,
   n / 16777216 % 256, n / 65536 % 256, n / 256 % 256, n % 256]

def shaPad (msg : List Nat) : List Nat :=
  let len := msg.length
  let padLen := (64 - (len + 9) % 64) % 64
  msg ++ [128] ++ List.replicate padLen 0 ++ be64 (len * 8)

def shaChunks : Nat → List Nat → List (List Nat)
  | 0, _ => []
  | n + 1, l => l.take 64 :: shaChunks n (l.drop 64)

/-- SHA-256 digest (32 bytes) of a byte string; models
`ring::digest::digest(&SHA256, ..)`. -/
def sha256 (msg : List Nat) : List Nat :=
  let padded := shaPad msg
  let blocks := shaChunks (padded.length / 64) padded
  ((blocks.foldl shaCompress shaH0).map wordToBytes).flatten

/-- HMAC-SHA256 (RFC 2104); models `ring::hmac::sign` with an
`HMAC_SHA256` key. -/
def hmacSha256 (key msg : List Nat) : List Nat :=
  let k0 := if key.length > 64 then sha256 key else key
  let kp := k0 ++ List.replicate (64 - k0.length) 0
  let ipad := kp.map (fun b => b ^^^ 0x36)
  let opad := kp.map (fun b => b ^^^ 0x5c)
  sha256 (opad ++ sha256 (ipad ++ msg))

/-! ## Timestamps

`chrono::DateTime<Utc>` is modelled as an `Int` count of seconds since the
Unix epoch.  Civil-date conversion uses the standard proleptic-Gregorian
algorithms, which agree with chrono over its whole domain. -/

/-- Days since 1970-01-01 of a civil date. -/
def daysFromCivil (y m d : Int) : Int :=
  let y' := if m ≤ 2 then y - 1 else y
  let era := Int.fdiv y' 400
  let yoe := y' - era * 400
  let mp := if m > 2 then m - 3 else m + 9
  let doy := (153 * mp + 2) / 5 + d - 1
  let doe := yoe * 365 + yoe / 4 - yoe / 100 + doy
  era * 146097 + doe - 719468

/-- Civil date `(y, m, d)` of a count of days since 1970-01-01. -/
def civilFromDays (z : Int) : Int × Int × Int :=
  let z' := z + 719468
  let era := Int.fdiv z' 146097
  let doe := z' - era * 146097
  let yoe := (doe - doe / 1460 + doe / 36524 - doe / 146096) / 365
  let y := yoe + era * 400
  let doy := doe - (365 * yoe + yoe / 4 - yoe / 100)
  let mp := (5 * doy + 2) / 153
  let d := doy - (153 * mp + 2) / 5 + 1
  let m := if mp < 10 then mp + 3 else mp - 9
  (if m ≤ 2 then y + 1 else y, m, d)

/-- A UTC timestamp from civil date and time of day. -/
def mkTs (y m d h mi s : Int) : Int :=
  daysFromCivil y m d * 86400 + h * 3600 + mi * 60 + s

/-- Decimal digits of `n`, left-padded with zeros to width `w`. -/
def padNat (w n : Nat) : List Nat :=
  let ds := natDecimal n
  List.replicate (w - ds.length) 48 ++ ds

/-- The `(y, m, d, h, mi, s)` fields of a timestamp. -/
def tsFields (t : Int) : Nat × Nat × Nat × Nat × Nat × Nat :=
  let days := Int.fdiv t 86400
  let sod := (t - days * 86400).toNat
  let c := civilFromDays days
  (c.1.toNat, c.2.1.toNat, c.2.2.toNat, sod / 3600, sod / 60 % 60, sod % 60)

/-- `ts.date().format("%Y%m%d")`. -/
def formatYMD (t : Int) : List Nat :=
  let f := tsFields t
  padNat 4 f.1 ++ padNat 2 f.2.1 ++ padNat 2 f.2.2.1

/-- The `ISO8601_COMPACT_FORMAT` (`%Y%m%dT%H%M%SZ`) rendering used in the
string to sign. -/
def formatISO8601Compact (t : Int) : List Nat :=
  let f := tsFields t
  padNat 4 f.1 ++ padNat 2 f.2.1 ++ padNat 2 f.2.2.1 ++ [84]
    ++ padNat 2 f.2.2.2.1 ++ padNat 2 f.2.2.2.2.1 ++ padNat 2 f.2.2.2.2.2
    ++ [90]

/-- `Display` for `chrono::DateTime<Utc>` (`%Y-%m-%d %H:%M:%S UTC`), used in
the `TimestampOutOfRange` error detail. -/
def displayUtc (t : Int) : List Nat :=
  let f := tsFields t
  padNat 4 f.1 ++ str "-" ++ padNat 2 f.2.1 ++ str "-" ++ padNat 2 f.2.2.1
    ++ str " " ++ padNat 2 f.2.2.2.1 ++ str ":" ++ padNat 2 f.2.2.2.2.1
    ++ str ":" ++ padNat 2 f.2.2.2.2.2 ++ str " UTC"

def isDigitByte (b : Nat) : Bool := 48 ≤ b && b ≤ 57

def isAlphaByte (b : Nat) : Bool :=
  (65 ≤ b && b ≤ 90) || (97 ≤ b && b ≤ 122)

def dig (b : Nat) : Int := (b : Int) - 48

def dig2 (a b : Nat) : Int := 10 * dig a + dig b

def dig4 (a b c d : Nat) : Int :=
  1000 * dig a + 100 * dig b + 10 * dig c + dig d

/-- Modelled from the spec: the repository's `chronoutil::ParseISO8601`
module is referenced from `lib.rs` but its source is not under `src/`.
§4.2 of the spec defines the accepted format as ISO 8601 compact
`YYYYMMDDTHHMMSSZ`; this parses exactly that shape. -/
def parseISO8601Compact (l : List Nat) : Option Int :=
  match l with
  | [y1, y2, y3, y4, mo1, mo2, d1, d2, 84, h1, h2, mi1, mi2, s1, s2, 90] =>
    if ([y1, y2, y3, y4, mo1, mo2, d1, d2, h1, h2, mi1, mi2, s1, s2].all
          isDigitByte)
        && 1 ≤ dig2 mo1 mo2 && dig2 mo1 mo2 ≤ 12
        && 1 ≤ dig2 d1 d2 && dig2 d1 d2 ≤ 31
        && dig2 h1 h2 ≤ 23 && dig2 mi1 mi2 ≤ 59 && dig2 s1 s2 ≤ 59 then
      some (mkTs (dig4 y1 y2 y3 y4) (dig2 mo1 mo2) (dig2 d1 d2)
        (dig2 h1 h2) (dig2 mi1 mi2) (dig2 s1 s2))
    else none
  | _ => none

/-- A fractional-second suffix (`.` then one or more digits), stripped;
`none` when a `.` is not followed by a digit. -/
def stripFraction : List Nat → Option (List Nat)
  | 46 :: r =>
    match r with
    | b :: _ => if isDigitByte b then some (r.dropWhile isDigitByte) else none
    | [] => none
  | r => some r

/-- A numeric or `Z` UTC offset, in seconds east of UTC. -/
def parseOffset3339 : List Nat → Option Int
  | [90] => some 0
  | [122] => some 0
  | [43, h1, h2, 58, m1, m2] =>
    if [h1, h2, m1, m2].all isDigitByte then
      some (dig2 h1 h2 * 3600 + dig2 m1 m2 * 60)
    else none
  | [45, h1, h2, 58, m1, m2] =>
    if [h1, h2, m1, m2].all isDigitByte then
      some (-(dig2 h1 h2 * 3600 + dig2 m1 m2 * 60))
    else none
  | _ => none

/-- RFC 3339 (`YYYY-MM-DDTHH:MM:SS[.f](Z|±HH:MM)`), as
`chrono::DateTime::parse_from_rfc3339` accepts it (third-party code,
modelled from its documented format). -/
def parseRFC3339 (l : List Nat) : Option Int :=
  match l with
  | y1 :: y2 :: y3 :: y4 :: 45 :: mo1 :: mo2 :: 45 :: d1 :: d2 :: t
      :: h1 :: h2 :: 58 :: mi1 :: mi2 :: 58 :: s1 :: s2 :: rest =>
    if (t = 84 || t = 116)
        && ([y1, y2, y3, y4, mo1, mo2, d1, d2, h1, h2, mi1, mi2, s1, s2].all
              isDigitByte)
        && 1 ≤ dig2 mo1 mo2 && dig2 mo1 mo2 ≤ 12
        && 1 ≤ dig2 d1 d2 && dig2 d1 d2 ≤ 31
        && dig2 h1 h2 ≤ 23 && dig2 mi1 mi2 ≤ 59 && dig2 s1 s2 ≤ 59 then
      match stripFraction rest with
      | some rest' =>
        match parseOffset3339 rest' with
        | some off =>
          some (mkTs (dig4 y1 y2 y3 y4) (dig2 mo1 mo2) (dig2 d1 d2)
            (dig2 h1 h2) (dig2 mi1 mi2) (dig2 s1 s2) - off)
        | none => none
      | none => none
    else none
  | _ => none

def monthNum (a b c : Nat) : Option Int :=
  match lowerBytes [a, b, c] with
  | [106, 97, 110] => some 1
  | [102, 101, 98] => some 2
  | [109, 97, 114] => some 3
  | [97, 112, 114] => some 4
  | [109, 97, 121] => some 5
  | [106, 117, 110] => some 6
  | [106, 117, 108] => some 7
  | [97, 117, 103] => some 8
  | [115, 101, 112] => some 9
  | [111, 99, 116] => some 10
  | [110, 111, 118] => some 11
  | [100, 101, 99] => some 12
  | _ => none

def parse2822Zone : List Nat → Option Int
  | [71, 77, 84] => some 0
  | [85, 84] => some 0
  | [85, 84, 67] => some 0
  | [43, a, b, c, d] =>
    if [a, b, c, d].all isDigitByte then
      some (dig2 a b * 3600 + dig2 c d * 60)
    else none
  | [45, a, b, c, d] =>
    if [a, b, c, d].all isDigitByte then
      some (-(dig2 a b * 3600 + dig2 c d * 60))
    else none
  | _ => none

def parse2822AfterDay (day : Int) : List Nat → Option Int
  | m1 :: m2 :: m3 :: 32 :: y1 :: y2 :: y3 :: y4 :: 32
      :: h1 :: h2 :: 58 :: mi1 :: mi2 :: rest =>
    if ([y1, y2, y3, y4, h1, h2, mi1, mi2].all isDigitByte)
        && dig2 h1 h2 ≤ 23 && dig2 mi1 mi2 ≤ 59 then
      match monthNum m1 m2 m3 with
      | none => none
      | some mo =>
        let finish := fun (sec : Int) (zone : List Nat) =>
          (parse2822Zone zone).map (fun off =>
            mkTs (dig4 y1 y2 y3 y4) mo day (dig2 h1 h2) (dig2 mi1 mi2) sec
              - off)
        match rest with
        | 58 :: s1 :: s2 :: 32 :: zone =>
          if isDigitByte s1 && isDigitByte s2 && dig2 s1 s2 ≤ 59 then
            finish (dig2 s1 s2) zone
          else none
        | 32 :: zone => finish 0 zone
        | _ => none
    else none
  | _ => none

/-- RFC 2822 (`[Day, ]DD Mon YYYY HH:MM[:SS] zone`), as
`chrono::DateTime::parse_from_rfc2822` accepts it (third-party code,
modelled from its documented format). -/
def parseRFC2822 (l : List Nat) : Option Int :=
  match l with
  | a :: rest =>
    if isAlphaByte a then
      -- a leading day-of-week name: three letters, a comma, and a space
      match rest with
      | b :: c :: 44 :: 32 :: rest' =>
        if isAlphaByte b && isAlphaByte c then
          match rest' with
          | d1 :: d2 :: 32 :: rest'' =>
            if isDigitByte d1 && isDigitByte d2 then
              parse2822AfterDay (dig2 d1 d2) rest''
            else if isDigitByte d1 then
              parse2822AfterDay (dig d1) (d2 :: 32 :: rest'')
            else none
          | _ => none
        else none
      | _ => none
    else
      match a :: rest with
      | d1 :: d2 :: 32 :: rest'' =>
        if isDigitByte d1 && isDigitByte d2 then
          parse2822AfterDay (dig2 d1 d2) rest''
        else if isDigitByte d1 then
          parse2822AfterDay (dig d1) (d2 :: 32 :: rest'')
        else none
      | _ => none
  | [] => none

/-! ## The error and result model of `signature.rs` -/

/-- `ErrorKind` from `signature.rs`.  The `IO` variant is `ioErr`; no code
path in the module constructs it (the `Vec` writes cannot fail). -/
inductive ErrorKind where
  | ioErr
  | invalidBodyEncoding
  | invalidCredential
  | invalidSignature
  | invalidURIPath
  | malformedHeader
  | malformedSignature
  | missingHeader
  | missingParameter
  | multipleHeaderValues
  | multipleParameterValues
  | timestampOutOfRange
  | unknownAccessKey
  | unknownSignatureAlgorithm
  deriving DecidableEq, Repr

/-- `SignatureError` (kind and detail; the captured backtrace carries no
observable information and is omitted). -/
structure SignatureError where
  kind : ErrorKind
  detail : List Nat
  deriving DecidableEq, Repr

/-- Result of running a fallible piece of the Rust code: success, a typed
`SignatureError`, or `crash`, which models a Rust panic (out-of-bounds
index or a failed `unwrap`); a panic aborts the whole computation. -/
inductive RResult (α : Type) where
  | ok (a : α)
  | fail (e : SignatureError)
  | crash
  deriving DecidableEq, Repr

def RResult.bind : RResult α → (α → RResult β) → RResult β
  | .ok a, f => f a
  | .fail e, _ => .fail e
  | .crash, _ => .crash

instance : Monad RResult where
  pure := .ok
  bind := .bind

/-- `SignatureError::new(kind, detail)` wrapped in `Err`. -/
def sigErr (k : ErrorKind) (d : List Nat) : RResult α := .fail ⟨k, d⟩

/-- The error kind of a result, if it is a typed error. -/
def errorKind : RResult α → Option ErrorKind
  | .fail e => some e.kind
  | _ => none

/-- Rust slice indexing `l[i]`: panics when out of bounds. -/
def listIndex (l : List α) (i : Nat) : RResult α :=
  match l.get? i with
  | some v => .ok v
  | none => .crash

/-! ## `signature.rs`: path and query canonicalization -/

/-- SHA-256 of the empty string, the `SHA256_EMPTY` constant. -/
def SHA256_EMPTY : List Nat :=
  str "e3b0c44298fc1c149afbf4c8996fb92427ae41e4649b934ca495991b7852b855"

/-- `is_rfc3986_unreserved`. -/
def isRfc3986Unreserved (c : Nat) : Bool :=
  isDigitByte c || isAlphaByte c || c = 45 || c = 46 || c = 95 || c = 126

/-- The byte-scanning loop of `normalize_uri_path_component`.  The source
walks an index `i` over the bytes; this recursion consumes the same bytes
left to right, emitting the same output.  On `%`, the source first tests
`i + 2 > len` (a lone trailing `%` becomes `%25`) and then slices
`[i+1..i+3]`, which panics when exactly one byte follows the `%`. -/
def nupcGo : List Nat → RResult (List Nat)
  | [] => .ok []
  | c :: rest =>
    if isRfc3986Unreserved c then
      (nupcGo rest).bind (fun r => .ok (c :: r))
    else if c = 37 then
      match rest with
      | [] => .ok (str "%25")
      | [_] => .crash
      | b1 :: b2 :: rest2 =>
        match hexDigitVal b1, hexDigitVal b2 with
        | some v1, some v2 =>
          let v := 16 * v1 + v2
          if isRfc3986Unreserved v then
            (nupcGo rest2).bind (fun r => .ok (v :: r))
          else
            (nupcGo rest2).bind (fun r => .ok (percentEncodeByte v ++ r))
        | _, _ =>
          sigErr .invalidURIPath
            (str "Invalid hex encoding: " ++ debugByteSlice [b1, b2])
    else if c = 43 then
      (nupcGo rest).bind (fun r => .ok (str "%20" ++ r))
    else
      (nupcGo rest).bind (fun r => .ok (percentEncodeByte c ++ r))

/-- `normalize_uri_path_component`; the final
`from_utf8(result).unwrap()` panics if the emitted bytes are not UTF-8. -/
def normalizeUriPathComponent (path_component : List Nat) :
    RResult (List Nat) :=
  (nupcGo path_component).bind (fun r =>
    if utf8Valid r then .ok r else .crash)

/-- The component-processing `while` loop of `canonicalize_uri_path` as a
left-to-right pass with a stack of the components kept so far.  The stack
holds `components[0..i]` of the source (the leading empty component and the
already-normalized ones): `.` drops the current component, `..` pops the
previous one (failing when only the leading empty component remains, the
source's `i <= 1`), anything else is pushed. -/
def cupGo (collapsed : List Nat) :
    List (List Nat) → List (List Nat) → RResult (List (List Nat))
  | stack, [] => .ok stack.reverse
  | stack, comp :: rest =>
    match normalizeUriPathComponent comp with
    | .fail e => .fail e
    | .crash => .crash
    | .ok component =>
      if component = str "." then cupGo collapsed stack rest
      else if component = str ".." then
        match stack with
        | [_] =>
          sigErr .invalidURIPath
            (str "Relative path entry '..' navigates above root: "
              ++ collapsed)
        | _ :: stack' => cupGo collapsed stack' rest
        | [] => .crash
      else cupGo collapsed (component :: stack) rest

/-- `canonicalize_uri_path`. -/
def canonicalizeUriPath (uri_path : List Nat) : RResult (List Nat) :=
  if uri_path = [] || uri_path = str "/" then .ok (str "/")
  else if uri_path.head? ≠ some 47 then
    sigErr .invalidURIPath (str "Path is not absolute: " ++ uri_path)
  else
    let collapsed := collapseRuns 47 uri_path
    match splitByte 47 collapsed with
    | root :: rest =>
      (cupGo collapsed [root] rest).bind (fun components =>
        match components with
        | [_] => .ok (str "/")
        | cs => .ok (joinSep (str "/") cs))
    | [] => .crash

/-- Append `v` to the entry for `k`, inserting the key on first sight; the
`get_mut`/`insert` pair of `normalize_query_parameters` over a map modelled
as an association list in insertion order. -/
def pushAssoc (m : List (List Nat × List (List Nat))) (k v : List Nat) :
    List (List Nat × List (List Nat)) :=
  match m with
  | [] => [(k, [v])]
  | (k', vs) :: rest =>
    if k' = k then (k', vs ++ [v]) :: rest else (k', vs) :: pushAssoc rest k v

/-- `normalize_query_parameters`.  The value extraction follows the source:
`parts.len() > 0` (always true for `splitn`) guards an access to
`parts[1]`, which panics when the fragment has no `=`. -/
def normalizeQueryParameters (query_string : List Nat) :
    RResult (List (List Nat × List (List Nat))) :=
  if query_string.length = 0 then .ok []
  else
    (splitByte 38 query_string).foldlM
      (fun result component =>
        if component.length = 0 then pure result
        else do
          let parts := splitOnceByte 61 component
          let key ← listIndex parts 0
          let value ← if parts.length > 0 then listIndex parts 1 else pure []
          let norm_key ← normalizeUriPathComponent key
          let norm_value ← normalizeUriPathComponent value
          pure (pushAssoc result norm_key norm_value))
      []

/-! ## `signature.rs`: the `Request` type and its methods -/

/-- The `Request` structure: client-supplied request pieces plus the
service-supplied region and service name. -/
structure Request where
  request_method : List Nat
  uri_path : List Nat
  query_string : List Nat
  headers : List (List Nat × List (List Nat))
  body : List Nat
  region : List Nat
  service : List Nat

/-- `Request::get_header_one`. -/
def getHeaderOne (req : Request) (header : List Nat) : RResult (List Nat) :=
  match assocGet req.headers header with
  | none => sigErr .missingHeader header
  | some values =>
    match values with
    | [] => sigErr .missingHeader header
    | [v] => if utf8Valid v then .ok v else sigErr .malformedHeader header
    | _ => sigErr .multipleHeaderValues header

/-- `Request::get_query_parameters`. -/
def getQueryParameters (req : Request) :
    RResult (List (List Nat × List (List Nat))) :=
  normalizeQueryParameters req.query_string

/-- `Request::get_query_param_one`. -/
def getQueryParamOne (req : Request) (parameter : List Nat) :
    RResult (List Nat) :=
  (getQueryParameters req).bind (fun qp =>
    match assocGet qp parameter with
    | none => sigErr .missingParameter parameter
    | some values =>
      match values with
      | [] => sigErr .missingParameter parameter
      | [v] => .ok v
      | _ => sigErr .multipleParameterValues parameter)

/-- The option scan of `get_content_type_and_charset`: the first
`charset=` option ends the loop. -/
def findCharset : List (List Nat) → Option (List Nat)
  | [] => none
  | opt :: rest =>
    let opt_parts := splitOnceByte 61 (trimBytes opt)
    if opt_parts.length = 2 && opt_parts.headD [] = str "charset" then
      some (lowerBytes (trimBytes (opt_parts.getD 1 [])))
    else findCharset rest

/-- `Request::get_content_type_and_charset`. -/
def getContentTypeAndCharset (req : Request) :
    RResult (List Nat × List Nat) :=
  (getHeaderOne req (str "content-type")).bind (fun content_type_opts =>
    match splitByte 59 content_type_opts with
    | [] => sigErr .malformedHeader (str "content-type header is empty")
    | ct :: options =>
      match findCharset options with
      | some charset => .ok (trimBytes ct, charset)
      | none => .ok (trimBytes ct, str "utf-8"))

/-! ## `signature.rs`: the `AWSSigV4Algorithm` trait methods -/

/-- `get_canonical_uri_path`. -/
def getCanonicalUriPath (req : Request) : RResult (List Nat) :=
  canonicalizeUriPath req.uri_path

def kvPairs (qp : List (List Nat × List (List Nat))) : List (List Nat) :=
  qp.foldl (fun acc kv => acc ++ kv.2.map (fun v => kv.1 ++ str "=" ++ v)) []

/-- `get_canonical_query_string`: the query parameters (the signature
parameter excluded), merged with the body for
`application/x-www-form-urlencoded` requests, sorted and joined. -/
def getCanonicalQueryString (req : Request) : RResult (List Nat) := do
  let query_parameters ← getQueryParameters req
  let results := (query_parameters.filter
    (fun kv => kv.1 ≠ str "X-Amz-Signature")) |> kvPairs
  let results ←
    match getContentTypeAndCharset req with
    | .ok (content_type, charset) =>
      if content_type = str "application/x-www-form-urlencoded" then
        if charset ≠ str "utf-8" && charset ≠ str "utf8" then
          sigErr .invalidBodyEncoding
            (str "application/x-www-form-urlencoded body uses unsupported charset "
              ++ charset)
        else if ¬ utf8Valid req.body then
          sigErr .invalidBodyEncoding
            (str "application/x-www-form-urlencoded body contains invalid UTF-8 characters")
        else do
          let body_normalized ← normalizeQueryParameters req.body
          pure (results ++ kvPairs body_normalized)
      else pure results
    | _ => pure results
  pure (joinSep (str "&") (sortLe lexLe results))

/-- `get_authorization_header_parameters`. -/
def getAuthorizationHeaderParameters (req : Request) :
    RResult (List (List Nat × List Nat)) := do
  let auth ← getHeaderOne req (str "authorization")
  let alg_parts := splitOnceByte 32 auth
  let alg ← listIndex alg_parts 0
  if alg ≠ str "AWS4-HMAC-SHA256" then
    sigErr .unknownSignatureAlgorithm alg
  else if alg_parts.length ≠ 2 then
    sigErr .malformedSignature (str "Missing parameters")
  else do
    let parameters ← listIndex alg_parts 1
    (splitByte 44 parameters).foldlM
      (fun result parameter => do
        let parts := splitOnceByte 61 parameter
        if parts.length ≠ 2 then
          sigErr .malformedSignature
            (str "Invalid Authorization header: missing '='")
        else do
          let key := trimStartBytes (← listIndex parts 0)
          let value := trimEndBytes (← listIndex parts 1)
          if (assocGet result key).isSome then
            sigErr .malformedSignature
              (str "Invalid Authorization header: duplicate key " ++ key)
          else pure (result ++ [(key, value)]))
      []

/-- `BTreeMap::insert` over a list kept sorted by byte order of the key. -/
def btreeInsert (m : List (List Nat × α)) (k : List Nat) (v : α) :
    List (List Nat × α) :=
  match m with
  | [] => [(k, v)]
  | (k', v') :: rest =>
    if k = k' then (k, v) :: rest
    else if lexLe k k' then (k, v) :: (k', v') :: rest
    else (k', v') :: btreeInsert rest k v

/-- `get_signed_headers`. -/
def getSignedHeaders (req : Request) :
    RResult (List (List Nat × List (List Nat))) :=
  let signed_headers_result : RResult (List Nat) :=
    match getQueryParamOne req (str "X-Amz-SignedHeaders") with
    | .ok sh => .ok sh
    | .crash => .crash
    | .fail e =>
      match e.kind with
      | .missingParameter =>
        match getAuthorizationHeaderParameters req with
        | .fail e' => .fail e'
        | .crash => .crash
        | .ok ahp =>
          match assocGet ahp (str "SignedHeaders") with
          | none => sigErr .missingParameter (str "SignedHeaders")
          | some sh => .ok sh
      | _ => .fail e
  signed_headers_result.bind (fun signed_headers =>
    let parts := splitByte 59 signed_headers
    let canonicalized :=
      sortLe (fun a b => lexLe (lowerBytes a) (lowerBytes b)) parts
    if parts ≠ canonicalized then
      sigErr .malformedSignature (str "SignedHeaders is not canonicalized")
    else
      canonicalized.foldlM
        (fun result header =>
          match assocGet req.headers header with
          | none => sigErr .missingParameter header
          | some value => pure (btreeInsert result header value))
        [])

/-- `get_request_timestamp`. -/
def getRequestTimestamp (req : Request) : RResult Int :=
  let date_str_result : RResult (List Nat) :=
    match getQueryParamOne req (str "X-Amz-Date") with
    | .ok dstr => .ok dstr
    | .crash => .crash
    | .fail e =>
      match e.kind with
      | .missingParameter =>
        match getHeaderOne req (str "x-amz-date") with
        | .ok dstr => .ok dstr
        | .crash => .crash
        | .fail e' =>
          match e'.kind with
          | .missingHeader => getHeaderOne req (str "date")
          | _ => .fail e'
      | _ => .fail e
  date_str_result.bind (fun date_str =>
    match parseRFC2822 date_str with
    | some t => .ok t
    | none =>
      match parseRFC3339 date_str with
      | some t => .ok t
      | none =>
        match parseISO8601Compact date_str with
        | some t => .ok t
        | none =>
          sigErr .malformedSignature (str "Invalid date string " ++ date_str))

/-- `get_credential_scope`. -/
def getCredentialScope (req : Request) : RResult (List Nat) := do
  let ts ← getRequestTimestamp req
  pure (formatYMD ts ++ str "/" ++ req.region ++ str "/" ++ req.service
    ++ str "/" ++ str "aws4_request")

/-- `get_access_key`.  When the `X-Amz-Credential` query parameter is
absent it falls back to `get_header_one(CREDENTIAL)`, i.e. to an HTTP
header literally named `Credential`. -/
def getAccessKey (req : Request) : RResult (List Nat) :=
  let credential_result : RResult (List Nat) :=
    match getQueryParamOne req (str "X-Amz-Credential") with
    | .ok c => .ok c
    | .crash => .crash
    | .fail e =>
      match e.kind with
      | .missingParameter => getHeaderOne req (str "Credential")
      | _ => .fail e
  credential_result.bind (fun credential =>
    let parts := splitOnceByte 47 credential
    if parts.length ≠ 2 then
      sigErr .invalidCredential (str "Malformed credential")
    else do
      let access_key ← listIndex parts 0
      let request_scope ← listIndex parts 1
      let server_scope ← getCredentialScope req
      if request_scope = server_scope then .ok access_key
      else
        sigErr .invalidCredential
          (str "Invalid credential scope: Expected " ++ server_scope
            ++ str " instead of " ++ request_scope))

/-- `get_session_token`.  The token-absent arm matches
`ErrorKind::MissingParameter`, but the header lookup it follows reports
`MissingHeader`. -/
def getSessionToken (req : Request) : RResult (Option (List Nat)) :=
  match getQueryParamOne req (str "X-Amz-Security-Token") with
  | .ok token => .ok (some token)
  | .crash => .crash
  | .fail e =>
    match e.kind with
    | .missingParameter =>
      match getHeaderOne req (str "x-amz-security-token") with
      | .ok token => .ok (some token)
      | .crash => .crash
      | .fail e' =>
        match e'.kind with
        | .missingParameter => .ok none
        | _ => .fail e'
    | _ => .fail e

/-- `get_request_signature`: the `X-Amz-Signature` query parameter, else
`get_header_one(SIGNATURE)` — an HTTP header literally named
`Signature`. -/
def getRequestSignature (req : Request) : RResult (List Nat) :=
  match getQueryParamOne req (str "X-Amz-Signature") with
  | .ok sig => .ok sig
  | .crash => .crash
  | .fail e =>
    match e.kind with
    | .missingParameter => getHeaderOne req (str "Signature")
    | _ => .fail e

/-- `get_body_digest`. -/
def getBodyDigest (req : Request) : RResult (List Nat) :=
  .ok (hexEncode (sha256 req.body))

/-- One `name:value1,value2,...\n` line of the canonical request; the
source `from_utf8(value).unwrap()` panics on a non-UTF-8 header value, and
the `MULTISPACE` regex collapses runs of spaces. -/
def canonicalHeaderLine (kv : List Nat × List (List Nat)) :
    RResult (List Nat) := do
  let vals ← kv.2.mapM (fun v =>
    if utf8Valid v then (pure (collapseRuns 32 v) : RResult _) else .crash)
  pure (kv.1 ++ str ":" ++ joinSep (str ",") vals ++ str "\n")

/-- `get_canonical_request`. -/
def getCanonicalRequest (req : Request) : RResult (List Nat) := do
  let canonical_uri_path ← getCanonicalUriPath req
  let canonical_query_string ← getCanonicalQueryString req
  let body_hex_digest ← getBodyDigest req
  let sh ← getSignedHeaders req
  let header_block ← sh.foldlM
    (fun acc kv => do pure (acc ++ (← canonicalHeaderLine kv))) []
  let header_keys := joinSep (str ";") (sh.map (·.1))
  let body_part :=
    match getContentTypeAndCharset req with
    | .ok (content_type, _) =>
      if content_type = str "application/x-www-form-urlencoded" then
        SHA256_EMPTY
      else body_hex_digest
    | _ => body_hex_digest
  pure (req.request_method ++ str "\n" ++ canonical_uri_path ++ str "\n"
    ++ canonical_query_string ++ str "\n" ++ header_block ++ str "\n"
    ++ header_keys ++ str "\n" ++ body_part)

/-- `get_string_to_sign`. -/
def getStringToSign (req : Request) : RResult (List Nat) := do
  let timestamp ← getRequestTimestamp req
  let credential_scope ← getCredentialScope req
  let canonical_request ← getCanonicalRequest req
  pure (str "AWS4-HMAC-SHA256" ++ str "\n"
    ++ formatISO8601Compact timestamp ++ str "\n"
    ++ credential_scope ++ str "\n"
    ++ hexEncode (sha256 canonical_request))

/-- The type of the `secret_key_fn` callback: access key and optional
session token to secret key. -/
def SecretKeyFn : Type := List Nat → Option (List Nat) → RResult (List Nat)

/-- `get_expected_signature`: derives the signing key through the
`kSecret → kDate → kRegion → kService → kSigning` HMAC chain and signs the
string to sign. -/
def getExpectedSignature (req : Request) (secret_key_fn : SecretKeyFn) :
    RResult (List Nat) := do
  let access_key ← getAccessKey req
  let session_token ← getSessionToken req
  let secret_key ← secret_key_fn access_key session_token
  let timestamp ← getRequestTimestamp req
  let req_date := formatYMD timestamp
  let string_to_sign ← getStringToSign req
  let k_secret := str "AWS4" ++ secret_key
  let k_date := hmacSha256 k_secret req_date
  let k_region := hmacSha256 k_date req.region
  let k_service := hmacSha256 k_region req.service
  let k_signing := hmacSha256 k_service (str "aws4_request")
  pure (hexEncode (hmacSha256 k_signing string_to_sign))

/-- `verify_at`: the timestamp-skew check (when a mismatch bound is given)
followed by computation and comparison of the expected signature. -/
def verifyAt (req : Request) (secret_key_fn : SecretKeyFn)
    (server_timestamp : Int) (allowed_mismatch : Option Int) :
    RResult Unit := do
  match allowed_mismatch with
  | some mm =>
    let req_ts ← getRequestTimestamp req
    let min_ts := server_timestamp - mm
    let max_ts := server_timestamp + mm
    if req_ts < min_ts || req_ts > max_ts then
      sigErr .timestampOutOfRange
        (str "minimum " ++ displayUtc min_ts ++ str ", maximum "
          ++ displayUtc max_ts ++ str ", receiverd " ++ displayUtc req_ts)
    else pure ()
  | none => pure ()
  let expected_sig ← getExpectedSignature req secret_key_fn
  let request_sig ← getRequestSignature req
  if expected_sig ≠ request_sig then
    sigErr .invalidSignature
      (str "Expected " ++ expected_sig ++ str " instead of " ++ request_sig)
  else pure ()

/-- The four-step signing-key chain exactly as the spec words it:
`kSecret = "AWS4" || secret; kDate = HMAC(kSecret, YYYYMMDD);
kRegion = HMAC(kDate, region); kService = HMAC(kRegion, service);
kSigning = HMAC(kService, "aws4_request")`.  Stated from the spec, to be
compared with `getExpectedSignature` above. -/
def signingKeySpec (secret date region service : List Nat) : List Nat :=
  hmacSha256
    (hmacSha256
      (hmacSha256
        (hmacSha256 (str "AWS4" ++ secret) date)
        region)
      service)
    (str "aws4_request")

/-! ## Concrete requests used in the theorems -/

/-- The Authorization header of the AWS SigV4 test-suite request
`get-vanilla` (also the spec's scenario S1). -/
def s1auth : List Nat :=
  str "AWS4-HMAC-SHA256 Credential=AKIDEXAMPLE/20150830/us-east-1/service/aws4_request, SignedHeaders=host;x-amz-date, Signature=5fa00fa31553b73ebf1942676e86291e8372ff2a2260956d9b8aae1d763fbf31"

/-- Scenario S1 / `get-vanilla`: a `GET /` request signed through the
Authorization header. -/
def s1req : Request := {
  request_method := str "GET"
  uri_path := str "/"
  query_string := []
  headers := [(str "host", [str "example.amazonaws.com"]),
              (str "x-amz-date", [str "20150830T123600Z"]),
              (str "authorization", [s1auth])]
  body := []
  region := str "us-east-1"
  service := str "service" }

/-- The string to sign of `s1req`, computed by the embedding and equal to
the test suite's `get-vanilla.sts` file. -/
def s1sts : List Nat :=
  str "AWS4-HMAC-SHA256\n20150830T123600Z\n20150830/us-east-1/service/aws4_request\nbb579772317eb040ac9ed261061d46c1f17a8133879d6129b6e1c25292927e63"

def s1secret : List Nat := str "wJalrXUtnFEMI/K7MDENG+bPxRfiCYEXAMPLEKEY"

/-- A secret-key callback returning a fixed secret. -/
def c5fn : SecretKeyFn := fun _ _ => .ok (str "SECRET")

/-- The expected signature of `c5req` below (`getExpectedSignature` on it
evaluates to exactly this hex string; see `c5_expected_sig`). -/
def c5sig : List Nat :=
  str "febba03b1466a68ce248b2575b928f3902980ca124ee623f616f42aa62e9fad8"

/-- A request that verifies successfully with signed headers `date` only:
timestamp from the `date` header, access key from a header named
`Credential` (the only spelling `get_access_key` accepts), a session token
(without one, `get_session_token` fails; see C2), and the presented
signature in a header named `Signature` equal to the expected one. -/
def c5req : Request := {
  request_method := str "GET"
  uri_path := str "/"
  query_string := []
  headers := [(str "authorization", [str "AWS4-HMAC-SHA256 SignedHeaders=date"]),
              (str "date", [str "20150830T123600Z"]),
              (str "Credential",
                [str "AK123/20150830/us-east-1/service/aws4_request"]),
              (str "x-amz-security-token", [str "tok"]),
              (str "Signature", [c5sig])]
  body := []
  region := str "us-east-1"
  service := str "service" }

/-- The string to sign of `c5req`. -/
def c5sts : List Nat :=
  str "AWS4-HMAC-SHA256\n20150830T123600Z\n20150830/us-east-1/service/aws4_request\n5fbf6772d0024c1ba9623356a9fb11abfaed6e056333b7b1dc97a1c548b449c0"

/-- `c5req` with a signed-headers list naming a header the request does
not carry. -/
def c5mreq : Request :=
  { c5req with
    headers := (str "authorization",
        [str "AWS4-HMAC-SHA256 SignedHeaders=date;x-whatever"])
      :: c5req.headers.tail }

/-- `c5req` presenting an incorrect all-zeros signature. -/
def c4req1 : Request :=
  { c5req with
    headers := c5req.headers.dropLast
      ++ [(str "Signature",
            [str "0000000000000000000000000000000000000000000000000000000000000000"])] }

/-- `c5req` presenting an incorrect all-ones signature. -/
def c4req2 : Request :=
  { c5req with
    headers := c5req.headers.dropLast
      ++ [(str "Signature",
            [str "1111111111111111111111111111111111111111111111111111111111111111"])] }

/-- The `InvalidSignature` detail produced for `c4req1`. -/
def c4detail1 : List Nat :=
  str "Expected " ++ c5sig ++ str " instead of "
    ++ str "0000000000000000000000000000000000000000000000000000000000000000"

/-- The `InvalidSignature` detail produced for `c4req2`. -/
def c4detail2 : List Nat :=
  str "Expected " ++ c5sig ++ str " instead of "
    ++ str "1111111111111111111111111111111111111111111111111111111111111111"

/-- Scenario S6: a bare request dated `20150830T121000Z`, with no
security-token header and no query parameters. -/
def c9req : Request := {
  request_method := str "GET"
  uri_path := str "/"
  query_string := []
  headers := [(str "date", [str "20150830T121000Z"])]
  body := []
  region := str "us-east-1"
  service := str "service" }

end Sig

namespace Sig

set_option maxRecDepth 100000

/-! ## Reduction lemmas for the result monad -/

theorem pure_eq (a : α) : (pure a : RResult α) = .ok a := rfl

theorem bind_eq (x : RResult α) (f : α → RResult β) : x >>= f = x.bind f := rfl

theorem ok_bind (a : α) (f : α → RResult β) :
    RResult.bind (.ok a) f = f a := rfl

theorem fail_bind (e : SignatureError) (f : α → RResult β) :
    RResult.bind (.fail e) f = .fail e := rfl

/-! ## Generic evaluation lemmas for `verifyAt` -/

/-- `verify_at` succeeds when the timestamp is within the allowed skew and
the presented signature equals the expected one. -/
theorem verifyAt_ok_of (req : Request) (fn : SecretKeyFn) (t mm req_ts : Int)
    (s : List Nat)
    (h1 : getRequestTimestamp req = .ok req_ts)
    (hlo : ¬ req_ts < t - mm) (hhi : ¬ req_ts > t + mm)
    (h2 : getExpectedSignature req fn = .ok s)
    (h3 : getRequestSignature req = .ok s) :
    verifyAt req fn t (some mm) = .ok () := by
  unfold verifyAt
  simp only [bind_eq, h1, h2, h3, ok_bind, RResult.bind, pure_eq]
  simp [hlo, hhi]

/-- With no allowed mismatch the skew check is skipped, and differing
signatures produce the `Expected .. instead of ..` detail. -/
theorem verifyAt_invalidSignature_of (req : Request) (fn : SecretKeyFn)
    (t : Int) (e r : List Nat)
    (h2 : getExpectedSignature req fn = .ok e)
    (h3 : getRequestSignature req = .ok r)
    (hne : e ≠ r) :
    verifyAt req fn t none =
      .fail ⟨.invalidSignature,
        str "Expected " ++ e ++ str " instead of " ++ r⟩ := by
  unfold verifyAt
  simp only [bind_eq, h2, h3, ok_bind, RResult.bind, pure_eq]
  simp [hne, sigErr]

/-! ## Validation of the embedding against the AWS SigV4 test suite -/

/-- The embedded SHA-256 reproduces the source's `SHA256_EMPTY` constant. -/
theorem sha256_empty_matches : hexEncode (sha256 []) = SHA256_EMPTY := by
  decide

/-- The embedding reproduces the official `get-vanilla` test vector: the
string to sign of scenario S1 and, from it, the documented expected
signature `5fa00fa3..`. -/
theorem s1_reproduces_aws_test_vector :
    getStringToSign s1req = .ok s1sts
      ∧ hexEncode (hmacSha256
          (signingKeySpec s1secret (str "20150830") (str "us-east-1")
            (str "service"))
          s1sts)
        = str "5fa00fa31553b73ebf1942676e86291e8372ff2a2260956d9b8aae1d763fbf31" :=
  ⟨by decide, by decide⟩

/-! ## Evaluation lemmas for the concrete requests -/

theorem c5_expected_sig : getExpectedSignature c5req c5fn = .ok c5sig := by
  decide

theorem c5_request_sig : getRequestSignature c5req = .ok c5sig := by decide

theorem c5_timestamp : getRequestTimestamp c5req = .ok 1440938160 := by
  decide

theorem c4req1_expected_sig :
    getExpectedSignature c4req1 c5fn = .ok c5sig := by decide

theorem c4req2_expected_sig :
    getExpectedSignature c4req2 c5fn = .ok c5sig := by decide

theorem c4req1_request_sig :
    getRequestSignature c4req1 =
      .ok (str "0000000000000000000000000000000000000000000000000000000000000000") := by
  decide

theorem c4req2_request_sig :
    getRequestSignature c4req2 =
      .ok (str "1111111111111111111111111111111111111111111111111111111111111111") := by
  decide

/-! ## The claims -/

/-- C1: on the `get-vanilla` request — whose Authorization header is
exactly `AWS4-HMAC-SHA256 Credential=AKIDEXAMPLE/<scope>,
SignedHeaders=host;x-amz-date, Signature=5fa00fa3..` and which has no
query parameters — `get_access_key` and `get_request_signature` do NOT
extract the Credential and Signature parameters of the Authorization
header: each instead looks up an HTTP header literally named `Credential`
resp. `Signature` and fails with `MissingHeader`. -/
theorem c1_credential_header_lookup :
    (assocGet s1req.headers (str "authorization") = some [s1auth])
      ∧ normalizeQueryParameters s1req.query_string = .ok []
      ∧ getAccessKey s1req = .fail ⟨.missingHeader, str "Credential"⟩
      ∧ getRequestSignature s1req = .fail ⟨.missingHeader, str "Signature"⟩ := by
  refine ⟨by decide, by decide, by decide, by decide⟩

/-- C2: on a request with no `X-Amz-Security-Token` query parameter and no
`x-amz-security-token` header, `get_session_token` returns
`Err(MissingHeader)` rather than `Ok(None)`: its token-absent arm matches
`ErrorKind::MissingParameter`, but the header lookup it follows reports
`MissingHeader`. -/
theorem c2_session_token_missing_header :
    assocGet c9req.headers (str "x-amz-security-token") = none
      ∧ normalizeQueryParameters c9req.query_string = .ok []
      ∧ getSessionToken c9req =
          .fail ⟨.missingHeader, str "x-amz-security-token"⟩ := by
  refine ⟨by decide, by decide, by decide⟩

/-- C3: whenever `get_expected_signature` resolves its inputs (access key,
session token, secret key, timestamp, string to sign), its result is the
lowercase hex encoding of `HMAC-SHA256(kSigning, StringToSign)` where
`kSigning` is the terminus of the four-step chain of the spec
(`signingKeySpec`), keyed date-region-service from the request. -/
theorem c3_expected_signature_chain (req : Request) (fn : SecretKeyFn)
    (ak : List Nat) (tok : Option (List Nat)) (secret : List Nat) (ts : Int)
    (sts : List Nat)
    (h1 : getAccessKey req = .ok ak)
    (h2 : getSessionToken req = .ok tok)
    (h3 : fn ak tok = .ok secret)
    (h4 : getRequestTimestamp req = .ok ts)
    (h5 : getStringToSign req = .ok sts) :
    getExpectedSignature req fn =
      .ok (hexEncode (hmacSha256
        (signingKeySpec secret (formatYMD ts) req.region req.service)
        sts)) := by
  unfold getExpectedSignature signingKeySpec
  simp only [bind_eq, h1, h2, h3, h4, h5, ok_bind, pure_eq]

/-- Witness for C3 at the concrete request `c5req`: all five hypotheses
hold by evaluation and the conclusion is the chain-derived signature. -/
theorem c3_expected_signature_chain_witness :
    getExpectedSignature c5req c5fn =
      .ok (hexEncode (hmacSha256
        (signingKeySpec (str "SECRET") (formatYMD 1440938160)
          (str "us-east-1") (str "service"))
        c5sts)) :=
  c3_expected_signature_chain c5req c5fn (str "AK123") (some (str "tok"))
    (str "SECRET") 1440938160 c5sts
    (by decide) (by decide) rfl c5_timestamp (by decide)

/-- C4 counterexample: two runs of `verify_at` on requests differing only
in the presented signature yield `InvalidSignature` errors whose details
differ — the detail is not the same fixed string in both runs (it embeds
the expected and presented signatures). -/
theorem c4_invalid_signature_detail_varies :
    verifyAt c4req1 c5fn 0 none = .fail ⟨.invalidSignature, c4detail1⟩
      ∧ verifyAt c4req2 c5fn 0 none = .fail ⟨.invalidSignature, c4detail2⟩
      ∧ c4detail1 ≠ c4detail2 :=
  ⟨verifyAt_invalidSignature_of c4req1 c5fn 0 c5sig _ c4req1_expected_sig
      c4req1_request_sig (by decide),
   verifyAt_invalidSignature_of c4req2 c5fn 0 c5sig _ c4req2_expected_sig
      c4req2_request_sig (by decide),
   by decide⟩

/-- C4 amended: the `InvalidSignature` detail is the string
`Expected <expected> instead of <presented>`; it varies with the request
and contains the expected signature as an infix. -/
theorem c4_invalid_signature_detail_format :
    verifyAt c4req1 c5fn 0 none =
        .fail ⟨.invalidSignature,
          str "Expected " ++ c5sig ++ str " instead of "
            ++ str "0000000000000000000000000000000000000000000000000000000000000000"⟩
      ∧ List.IsInfix c5sig c4detail1 :=
  ⟨verifyAt_invalidSignature_of c4req1 c5fn 0 c5sig _ c4req1_expected_sig
      c4req1_request_sig (by decide),
   ⟨str "Expected ",
    str " instead of "
      ++ str "0000000000000000000000000000000000000000000000000000000000000000",
    by simp [c4detail1, List.append_assoc]⟩⟩

/-- C5 counterexample: `c5req` signs only the `date` header — its
signed-headers set does not contain `host` — yet `verify_at` succeeds, so
verification does not fail with `MissingHeader` on such a request. -/
theorem c5_verifies_without_host :
    getSignedHeaders c5req = .ok [(str "date", [str "20150830T123600Z"])]
      ∧ verifyAt c5req c5fn (mkTs 2015 8 30 12 36 0) (some 900) = .ok () :=
  ⟨by decide,
   verifyAt_ok_of c5req c5fn _ 900 1440938160 c5sig c5_timestamp
     (by decide) (by decide) c5_expected_sig c5_request_sig⟩

/-- C5 amended: each header listed in `SignedHeaders` must be present in
the request — a listed but absent header fails with `MissingParameter`
(not `MissingHeader`) — and there is no always-present set: a request
whose signed-headers list does not contain `host` can verify
successfully. -/
theorem c5_signed_headers_discipline :
    getSignedHeaders c5mreq = .fail ⟨.missingParameter, str "x-whatever"⟩
      ∧ verifyAt c5req c5fn (mkTs 2015 8 30 12 36 0) (some 900) = .ok () :=
  ⟨by decide,
   verifyAt_ok_of c5req c5fn _ 900 1440938160 c5sig c5_timestamp
     (by decide) (by decide) c5_expected_sig c5_request_sig⟩

/-- C6: `canonicalize_uri_path` maps `""` and `"/"` to `"/"`, maps
`"/foo//bar/../baz/./"` to `"/foo/baz/"`, and fails on `"/.."` with
`InvalidURIPath`. -/
theorem c6_canonicalize_uri_path_cases :
    canonicalizeUriPath (str "") = .ok (str "/")
      ∧ canonicalizeUriPath (str "/") = .ok (str "/")
      ∧ canonicalizeUriPath (str "/foo//bar/../baz/./") = .ok (str "/foo/baz/")
      ∧ canonicalizeUriPath (str "/..") =
          .fail ⟨.invalidURIPath,
            str "Relative path entry '..' navigates above root: /.."⟩ := by
  refine ⟨by decide, by decide, by decide, by decide⟩

/-- C7 counterexample: a component consisting of a bare `%` (a `%`
followed by fewer than two hex digits) does not fail with
`InvalidURIPath`; `normalize_uri_path_component` rewrites it to `%25`. -/
theorem c7_bare_percent_is_rewritten :
    normalizeUriPathComponent (str "%") = .ok (str "%25") := by decide

/-- C7 amended: a `%` with nothing after it is rewritten to `%25`; a `%`
followed by exactly one character panics (the source slices
`[i+1..i+3]` past the end); a `%` followed by two non-hex characters
fails with `InvalidURIPath`. -/
theorem c7_truncated_escape_behavior :
    normalizeUriPathComponent (str "%") = .ok (str "%25")
      ∧ normalizeUriPathComponent (str "a%") = .ok (str "a%25")
      ∧ normalizeUriPathComponent (str "%A") = .crash
      ∧ normalizeUriPathComponent (str "%ZZ") =
          .fail ⟨.invalidURIPath, str "Invalid hex encoding: [90, 90]"⟩ := by
  refine ⟨by decide, by decide, by decide, by decide⟩

/-- C8: a query string with a non-empty fragment that has no `=` makes
`normalize_query_parameters` panic (index out of bounds on `parts[1]`,
whose guard tests `parts.len() > 0` instead of `> 1`) rather than mapping
the key to an empty value. -/
theorem c8_query_fragment_without_equals_panics :
    normalizeQueryParameters (str "foo") = .crash
      ∧ normalizeQueryParameters (str "a=1&foo") = .crash := by
  refine ⟨by decide, by decide⟩

/-- C9 counterexample: with skew 15 min, a request timestamped
`20150830T121000Z` does NOT pass the skew check at server time
`20150830T123500Z` (they are 25 minutes apart): `verify_at` yields
`TimestampOutOfRange` there too. -/
theorem c9_timestamp_out_of_range_at_123500 :
    errorKind (verifyAt c9req c5fn (mkTs 2015 8 30 12 35 0) (some 900))
      = some .timestampOutOfRange := by decide

/-- C9 amended: with skew 15 min, the request timestamped
`20150830T121000Z` fails `TimestampOutOfRange` at server time
`20150830T124000Z`, and passes the skew check at server time
`20150830T122000Z` (verification proceeds past the timestamp check and
fails later with `MissingHeader` for the access key). -/
theorem c9_timestamp_skew_behavior :
    errorKind (verifyAt c9req c5fn (mkTs 2015 8 30 12 40 0) (some 900))
        = some .timestampOutOfRange
      ∧ errorKind (verifyAt c9req c5fn (mkTs 2015 8 30 12 20 0) (some 900))
        = some .missingHeader := by
  refine ⟨by decide, by decide⟩

end Sig




